import Mathlib

/-!
Verification of the AI Provider Abstraction and Orchestration Layer of the
RedBlink repository, as a shallow embedding in Lean 4.

The definitions below are translated from the TypeScript sources:
- vscode-extension/src/aiProvider/types.ts    (canonical data model)
- vscode-extension/src/aiProvider/index.ts    (ProviderManager)
- vscode-extension/src/aiProvider/claude.ts   (ClaudeProvider)
- vscode-extension/src/aiProvider/gemini.ts   (GeminiProvider)
- the OpenAI provider file                    (OpenAIProvider)

Conventions of the embedding:
- JavaScript timestamps are modelled as natural numbers of milliseconds.
- A JavaScript Map is modelled as an association list with replace-on-insert.
- Promise-returning methods that the source can reject are modelled with
  Except String; methods whose whole body is wrapped in a try/catch that
  returns a canonical response are modelled as total functions.
- External effects (credential presence, HTTP outcomes, stream events,
  JSON parsing) are modelled as explicit environment parameters.
-/

/-! ## Data model (types.ts) -/

/-- Supported AI providers (enum AIProviderType). -/
inductive AIProviderType where
  | claude
  | openai
  | gemini
  | copilot
  | vscodeLm
deriving DecidableEq, Repr

/-- The string identifier of each enum member of AIProviderType. -/
def AIProviderType.idString : AIProviderType → String
  | .claude => "claude"
  | .openai => "openai"
  | .gemini => "gemini"
  | .copilot => "copilot"
  | .vscodeLm => "vscode-lm"

/-- Message role in a conversation. -/
inductive MessageRole where
  | user
  | assistant
deriving DecidableEq, Repr

/-- interface ConversationMessage. -/
structure ConversationMessage where
  role : MessageRole
  content : String
  timestamp : Nat
deriving DecidableEq, Repr

/-- interface AIProviderRequest. -/
structure AIProviderRequest where
  question : String
  codeContext : String
  errorMessage : String
  filePath : String
  errorType : String
  maxTokens : Option Nat := none
deriving DecidableEq, Repr

/-- Token usage record of an AIProviderResponse. -/
structure TokenUsage where
  inputTokens : Nat
  outputTokens : Nat
  totalTokens : Nat
deriving DecidableEq, Repr

/-- interface AIProviderResponse. -/
structure AIProviderResponse where
  id : String
  text : String
  provider : AIProviderType
  responseTime : Nat
  timestamp : Nat
  tokenUsage : TokenUsage
  success : Bool
  error : Option String := none
  stopReason : Option String := none
deriving DecidableEq, Repr

/-- interface ProviderManagerConfig. -/
structure ProviderManagerConfig where
  defaultProvider : AIProviderType
  enableFallback : Bool
  enabledProviders : List AIProviderType
  requestTimeout : Nat
  enableRetry : Bool
  maxRetries : Nat
deriving DecidableEq, Repr

/-- DEFAULT_PROVIDER_CONFIG from types.ts. -/
def DEFAULT_PROVIDER_CONFIG : ProviderManagerConfig where
  defaultProvider := .gemini
  enableFallback := true
  enabledProviders := [.gemini, .claude, .openai, .copilot]
  requestTimeout := 30000
  enableRetry := true
  maxRetries := 3

/-- The message field of an AIProviderError: the provider id in square
brackets followed by the given message. -/
def aiProviderErrorMessage (p : AIProviderType) (msg : String) : String :=
  "[" ++ p.idString ++ "] " ++ msg

/-! ## Conversation history store (storeInHistory in claude.ts / gemini.ts)

Both adapters keep a per-file-path history map and run the same code:
push one user entry and one assistant entry, then, when the list exceeds
10 entries, splice away everything but the last 10. -/

/-- The last n elements of a list (JavaScript splice(0, length - 10) keeps
exactly the last 10 entries; with natural subtraction this drop is a no-op
when the list is short). -/
def takeLast (n : Nat) (l : List α) : List α :=
  l.drop (l.length - n)

/-- storeInHistory of claude.ts / gemini.ts restricted to one conversation
key: append the user question and the assistant response, then keep only
the last 10 messages. -/
def storeInHistory (history : List ConversationMessage)
    (question response : String) (now : Nat) : List ConversationMessage :=
  let h1 := history ++
    [{ role := .user, content := question, timestamp := now },
     { role := .assistant, content := response, timestamp := now }]
  if h1.length > 10 then h1.drop (h1.length - 10) else h1

/-- One appended exchange: the user question, the assistant response and
the timestamp of the append. -/
structure Exchange where
  question : String
  response : String
  time : Nat
deriving DecidableEq, Repr

/-- The two conversation entries produced by appending one exchange. -/
def Exchange.messages (e : Exchange) : List ConversationMessage :=
  [{ role := .user, content := e.question, timestamp := e.time },
   { role := .assistant, content := e.response, timestamp := e.time }]

/-- The history obtained by appending a sequence of exchanges to an empty
history through storeInHistory. -/
def appendExchanges (exs : List Exchange) : List ConversationMessage :=
  exs.foldl (fun h e => storeInHistory h e.question e.response e.time) []

/-- All messages of a sequence of exchanges, uncapped, in append order. -/
def allMessages (exs : List Exchange) : List ConversationMessage :=
  (exs.map Exchange.messages).flatten

/-- Boolean check that a message list is a whole number of exchanges:
even length, strictly alternating user, assistant, user, assistant, ... -/
def alternatesUA : List ConversationMessage → Bool
  | [] => true
  | u :: a :: rest => u.role == .user && a.role == .assistant && alternatesUA rest
  | _ :: [] => false

/-! ## String utilities

JavaScript String.prototype.includes, String.prototype.replace with a
string pattern (first occurrence only) and startsWith, modelled on
character lists. -/

/-- Whether the first list starts with the second (pattern) list. -/
def charsStartWith : List Char → List Char → Bool
  | _, [] => true
  | [], _ :: _ => false
  | c :: cs, p :: ps => c == p && charsStartWith cs ps

/-- Whether pat occurs as a contiguous sublist (JavaScript includes). -/
def hasSubChars (pat : List Char) : List Char → Bool
  | [] => charsStartWith [] pat
  | c :: rest => charsStartWith (c :: rest) pat || hasSubChars pat rest

/-- JavaScript s.includes(pat). -/
def strContains (s pat : String) : Bool :=
  hasSubChars pat.data s.data

/-- Replace the first occurrence of pat in l by repl
(JavaScript String.prototype.replace with a string pattern). -/
def replaceFirstChars (pat repl : List Char) : List Char → List Char
  | [] => if charsStartWith [] pat then repl else []
  | c :: rest =>
    if charsStartWith (c :: rest) pat then repl ++ (c :: rest).drop pat.length
    else c :: replaceFirstChars pat repl rest

/-- JavaScript s.replace(pat, repl) with a string pattern. -/
def replaceFirst (s pat repl : String) : String :=
  String.mk (replaceFirstChars pat.data repl.data s.data)

/-! ## Prompt template (DEFAULT_PROMPT_TEMPLATE in types.ts) -/

/-- The system part of DEFAULT_PROMPT_TEMPLATE. -/
def DEFAULT_PROMPT_TEMPLATE_system : String :=
  "You are an expert debugging assistant. Help developers understand and fix their code errors.\nWhen responding:\n1. Explain the error in simple terms\n2. Provide the root cause\n3. Suggest 2-3 fixes with code examples\n4. Explain best practices to prevent this error\nKeep responses concise but thorough."

/-- The user part of DEFAULT_PROMPT_TEMPLATE. -/
def DEFAULT_PROMPT_TEMPLATE_user : String :=
  "I have a {errorType} error in my code.\n\nFile: {filePath}\n\nError Message: {errorMessage}\n\nCode Context:\n```\n{codeContext}\n```\n\nQuestion: {question}"

/-- buildPrompt, identical in all adapters: fill the user template by
five successive first-occurrence replacements. -/
def buildPrompt (req : AIProviderRequest) : String :=
  let p := DEFAULT_PROMPT_TEMPLATE_user
  let p := replaceFirst p "{errorType}" req.errorType
  let p := replaceFirst p "{filePath}" req.filePath
  let p := replaceFirst p "{errorMessage}" req.errorMessage
  let p := replaceFirst p "{codeContext}" req.codeContext
  replaceFirst p "{question}" req.question

/-! ## Conversation history map (per-adapter Map keyed by file path) -/

/-- The per-adapter conversation history map. -/
abbrev HistoryMap := List (String × List ConversationMessage)

/-- Map.get with a default of the empty history (adapters use
conversationHistory.get(key) after ensuring presence, or getD []). -/
def historyGet (m : HistoryMap) (k : String) : List ConversationMessage :=
  ((m.find? (fun e => e.1 == k)).map (fun e => e.2)).getD []

/-- Map.set: replace the binding when the key is present, else append. -/
def historySet (m : HistoryMap) (k : String) (v : List ConversationMessage) :
    HistoryMap :=
  if m.any (fun e => e.1 == k) then
    m.map (fun e => if e.1 == k then (k, v) else e)
  else m ++ [(k, v)]

/-! ## ProviderManager (index.ts) -/

namespace ProviderManager

/-- Cache TTL in milliseconds (5 minutes). -/
def CACHE_TTL : Nat := 5 * 60 * 1000

/-- Base retry delay in milliseconds. -/
def RETRY_DELAY : Nat := 1000

/-- The response cache: a Map from string keys to canonical responses. -/
abbrev ResponseCache := List (String × AIProviderResponse)

/-- Map.get on the response cache. -/
def cacheFind (c : ResponseCache) (k : String) : Option AIProviderResponse :=
  (c.find? (fun e => e.1 == k)).map (fun e => e.2)

/-- Map.set on the response cache. -/
def cacheSet (c : ResponseCache) (k : String) (r : AIProviderResponse) :
    ResponseCache :=
  if c.any (fun e => e.1 == k) then
    c.map (fun e => if e.1 == k then (k, r) else e)
  else c ++ [(k, r)]

/-- Map.delete on the response cache. -/
def cacheDelete (c : ResponseCache) (k : String) : ResponseCache :=
  c.filter (fun e => !(e.1 == k))

/-- One step of simpleHash: hash = ((hash << 5) - hash) + charCode,
truncated to a 32-bit signed integer by hash = hash & hash. -/
def toInt32 (n : Int) : Int := (n + 2 ^ 31) % 2 ^ 32 - 2 ^ 31

/-- The loop body of simpleHash for one character. -/
def simpleHashStep (hash : Int) (c : Char) : Int :=
  toInt32 (toInt32 (hash * 32) - hash + c.toNat)

/-- The integer value accumulated by simpleHash before toString(36). -/
def simpleHashInt (s : String) : Int :=
  s.data.foldl simpleHashStep 0

/-- Digit character of a base-36 digit, 0-9 then a-z. -/
def digitChar36 (d : Nat) : Char :=
  if d < 10 then Char.ofNat (48 + d) else Char.ofNat (87 + d)

/-- Base-36 digit list of a natural number, most significant first.
The first argument is structural fuel; n + 1 digits always suffice. -/
def natToBase36Go : Nat → Nat → List Char
  | 0, _ => []
  | fuel + 1, n =>
    if n < 36 then [digitChar36 n]
    else natToBase36Go fuel (n / 36) ++ [digitChar36 (n % 36)]

/-- JavaScript Number.prototype.toString(36) for integers. -/
def intToString36 (n : Int) : String :=
  if n < 0 then "-" ++ String.mk (natToBase36Go (n.natAbs + 1) n.natAbs)
  else String.mk (natToBase36Go (n.toNat + 1) n.toNat)

/-- simpleHash from index.ts. -/
def simpleHash (s : String) : String :=
  intToString36 (simpleHashInt s)

/-- generateCacheKey: hash of question, errorType and errorMessage joined
with a vertical bar. -/
def generateCacheKey (req : AIProviderRequest) : String :=
  simpleHash (req.question ++ "|" ++ req.errorType ++ "|" ++ req.errorMessage)

/-- getFromCache: a hit within the TTL returns the entry unchanged; an
entry older than the TTL is deleted (lazy purge) and reported as a miss.
Returns the lookup result together with the possibly purged cache. -/
def getFromCache (c : ResponseCache) (key : String) (now : Nat) :
    Option AIProviderResponse × ResponseCache :=
  match cacheFind c key with
  | none => (none, c)
  | some cached =>
    if now - cached.timestamp > CACHE_TTL then (none, cacheDelete c key)
    else (some cached, c)

/-- addToCache: unconditional Map.set. -/
def addToCache (c : ResponseCache) (key : String) (r : AIProviderResponse) :
    ResponseCache :=
  cacheSet c key r

/-- Outcome of one withTimeout-wrapped adapter sendRequest call: the
adapter promise resolves with a canonical response (adapters never
reject), or the timeout wrapper rejects first. -/
inductive CallOutcome where
  | resolves (r : AIProviderResponse)
  | timesOut
deriving DecidableEq, Repr

/-- The external environment of one Manager sendRequest invocation:
which providers report isAvailable, and the outcome of the k-th
sendRequest call made to each provider during this invocation. -/
structure ManagerEnv where
  available : AIProviderType → Bool
  call : AIProviderType → Nat → CallOutcome

/-- Mutable Manager state touched by sendRequest. -/
structure ManagerState where
  activeProvider : AIProviderType
  responseCache : ResponseCache
deriving DecidableEq, Repr

/-- Result of one Manager sendRequest invocation: the returned response
or the thrown error message, the final Manager state, the adapter
sendRequest calls made (in order) and the backoff sleeps performed. -/
structure SendOutcome where
  result : Except String AIProviderResponse
  state : ManagerState
  calls : List AIProviderType
  sleeps : List Nat
deriving Repr

/-- getAvailableProviders: the enabled providers whose isAvailable check
passes, in configured order. -/
def getAvailableProviders (env : ManagerEnv) (cfg : ProviderManagerConfig) :
    List AIProviderType :=
  cfg.enabledProviders.filter (fun p => env.available p)

/-- The loop of sendRequestWithFallback: try each fallback candidate once
with timeout; the first one whose call resolves becomes the active
provider and its response is returned; a candidate whose call rejects is
skipped; all exhausted throws. -/
def tryFallbackProviders (env : ManagerEnv) (st : ManagerState) :
    List AIProviderType → SendOutcome
  | [] =>
    { result := .error "All fallback providers failed",
      state := st, calls := [], sleeps := [] }
  | p :: rest =>
    match env.call p 1 with
    | .resolves r =>
      { result := .ok r, state := { st with activeProvider := p },
        calls := [p], sleeps := [] }
    | .timesOut =>
      let o := tryFallbackProviders env st rest
      { o with calls := p :: o.calls }

/-- sendRequestWithFallback: available providers minus the excluded one,
in configured order; empty list throws; otherwise try them in order. -/
def sendRequestWithFallback (env : ManagerEnv) (cfg : ProviderManagerConfig)
    (st : ManagerState) (excludeProvider : AIProviderType) : SendOutcome :=
  let fallbackProviders :=
    (getAvailableProviders env cfg).filter (fun p => !(p == excludeProvider))
  if fallbackProviders.isEmpty then
    { result := .error "No fallback providers available",
      state := st, calls := [], sleeps := [] }
  else tryFallbackProviders env st fallbackProviders

/-- What sendRequest does once the attempt loop is exhausted: fall back
when enabled, else throw the last error (or a generic message when no
attempt ran). -/
def afterAttempts (env : ManagerEnv) (cfg : ProviderManagerConfig)
    (st : ManagerState) (lastError : Option String) : SendOutcome :=
  if cfg.enableFallback then
    sendRequestWithFallback env cfg st st.activeProvider
  else
    { result := .error (lastError.getD "Request failed"),
      state := st, calls := [], sleeps := [] }

/-- The retry loop of sendRequest. remaining is the number of loop
iterations still to run (the loop runs for attempt = 1 .. maxRetries, so
it starts at maxRetries with attempt = 1). Each iteration checks
isAvailable, then performs the withTimeout-wrapped call; a resolved
response is written through to the cache and returned; a failed attempt
records the error and, when attempts remain, sleeps
RETRY_DELAY * 2 ^ (attempt - 1) before the next iteration. -/
def sendRequestLoop (env : ManagerEnv) (cfg : ProviderManagerConfig)
    (key : String) (st : ManagerState) :
    Nat → Nat → Option String → SendOutcome
  | 0, _, lastError => afterAttempts env cfg st lastError
  | remaining + 1, attempt, _lastError =>
    if env.available st.activeProvider then
      match env.call st.activeProvider attempt with
      | .resolves r =>
        { result := .ok r,
          state := { st with responseCache := addToCache st.responseCache key r },
          calls := [st.activeProvider], sleeps := [] }
      | .timesOut =>
        let msg := "Request timeout after " ++ toString cfg.requestTimeout ++ "ms"
        let ds := if attempt < cfg.maxRetries
          then [RETRY_DELAY * 2 ^ (attempt - 1)] else []
        let o := sendRequestLoop env cfg key st remaining (attempt + 1) (some msg)
        { o with calls := st.activeProvider :: o.calls, sleeps := ds ++ o.sleeps }
    else
      let msg := aiProviderErrorMessage st.activeProvider
        "Provider not available (missing API key?)"
      let ds := if attempt < cfg.maxRetries
        then [RETRY_DELAY * 2 ^ (attempt - 1)] else []
      let o := sendRequestLoop env cfg key st remaining (attempt + 1) (some msg)
      { o with sleeps := ds ++ o.sleeps }

/-- ProviderManager.sendRequest: cache lookup (with lazy purge), then the
retry loop on the active provider, then fallback. -/
def sendRequest (env : ManagerEnv) (cfg : ProviderManagerConfig)
    (st : ManagerState) (req : AIProviderRequest) (now : Nat) : SendOutcome :=
  let key := generateCacheKey req
  match getFromCache st.responseCache key now with
  | (some cached, c) =>
    { result := .ok cached, state := { st with responseCache := c },
      calls := [], sleeps := [] }
  | (none, c) =>
    sendRequestLoop env cfg key { st with responseCache := c }
      cfg.maxRetries 1 none

end ProviderManager

/-! ## Shared adapter shapes -/

/-- The canonical failure response every adapter catch block builds:
empty text, zero token usage, success false, the error message set. -/
def failureResponse (p : AIProviderType) (rid : String) (rt now : Nat)
    (msg : String) : AIProviderResponse where
  id := rid
  text := ""
  provider := p
  responseTime := rt
  timestamp := now
  tokenUsage := { inputTokens := 0, outputTokens := 0, totalTokens := 0 }
  success := false
  error := some msg

/-- estimateTokenUsage of gemini.ts: ceil(length / 4) for prompt and
response. -/
def estimateTokenUsage (prompt response : String) : TokenUsage where
  inputTokens := (prompt.length + 3) / 4
  outputTokens := (response.length + 3) / 4
  totalTokens := (prompt.length + 3) / 4 + (response.length + 3) / 4

/-! ## ClaudeProvider (claude.ts) -/

namespace ClaudeProvider

/-- The fields of a resolved Anthropic API response that sendRequest
reads: the text of the first text content block (none when no text block
exists), the reported token usage and the stop reason. -/
structure ClaudePayload where
  text : Option String
  inputTokens : Nat
  outputTokens : Nat
  stopReason : Option String
deriving DecidableEq, Repr

/-- Outcome of the SDK call client.messages.create: it resolves with a
payload or rejects with an error message. -/
inductive ClaudeApiOutcome where
  | resolves (p : ClaudePayload)
  | throws (msg : String)
deriving DecidableEq, Repr

/-- The error rewriting in the catch block of ClaudeProvider.sendRequest:
401, 429 and 503 substrings map to friendly messages, anything else is
passed through. -/
def friendlyMessage (msg : String) : String :=
  if strContains msg "401" then
    "Invalid API key. Please check your Claude API key."
  else if strContains msg "429" then
    "Rate limit exceeded. Please try again in a moment."
  else if strContains msg "503" then
    "Claude API is temporarily unavailable. Please try again later."
  else msg

/-- parseResponse: the text of the first text block; a missing block or
falsy (empty) text raises an AIProviderError. -/
def parseResponse (p : ClaudePayload) : Except String String :=
  match p.text with
  | some t =>
    if t == "" then
      .error (aiProviderErrorMessage .claude "Could not parse API response")
    else .ok t
  | none => .error (aiProviderErrorMessage .claude "Could not parse API response")

/-- ClaudeProvider.sendRequest. configured is the guard
this.client and this.apiKey are both set; api is the SDK call outcome;
rid, now and rt stand for the generated response id, Date.now() and the
measured response time. Returns the canonical response and the updated
conversation history map. -/
def sendRequest (configured : Bool) (api : ClaudeApiOutcome)
    (hist : HistoryMap) (req : AIProviderRequest) (rid : String)
    (now rt : Nat) : AIProviderResponse × HistoryMap :=
  if !configured then
    (failureResponse .claude rid rt now
      (friendlyMessage (aiProviderErrorMessage .claude
        "Claude not configured. Please add your API key in settings.")), hist)
  else
    match api with
    | .throws msg => (failureResponse .claude rid rt now (friendlyMessage msg), hist)
    | .resolves p =>
      match parseResponse p with
      | .error m => (failureResponse .claude rid rt now (friendlyMessage m), hist)
      | .ok t =>
        let newHist := historySet hist req.filePath
          (storeInHistory (historyGet hist req.filePath) req.question t now)
        ({ id := rid, text := t, provider := .claude, responseTime := rt,
           timestamp := now,
           tokenUsage := ⟨p.inputTokens, p.outputTokens, p.inputTokens + p.outputTokens⟩,
           success := true, error := none, stopReason := p.stopReason }, newHist)

/-- One event of the Anthropic streaming protocol as sendRequestStream
distinguishes them. -/
inductive ClaudeStreamEvent where
  | contentBlockDelta (text : String)
  | messageStart
  | messageDelta (outputTokens : Option Nat)
  | otherEvent
deriving DecidableEq, Repr

/-- The fold of the for-await loop of sendRequestStream over one event:
text deltas are appended to the full text and emitted through onChunk;
a message delta records the output token count. The accumulator is
(fullText, onChunk arguments so far, totalOutputTokens). -/
def streamFold (acc : String × List String × Nat) (ev : ClaudeStreamEvent) :
    String × List String × Nat :=
  match ev with
  | .contentBlockDelta t => (acc.1 ++ t, acc.2.1 ++ [t], acc.2.2)
  | .messageDelta (some o) => (acc.1, acc.2.1, o)
  | .messageDelta none => acc
  | .messageStart => acc
  | .otherEvent => acc

/-- ClaudeProvider.sendRequestStream. events are the stream events
received before the stream either ends (abort = none) or rejects with a
message (abort = some msg). Returns the canonical response, the updated
history map and the list of onChunk arguments in call order. -/
def sendRequestStream (configured : Bool) (events : List ClaudeStreamEvent)
    (abort : Option String) (hist : HistoryMap) (req : AIProviderRequest)
    (rid : String) (now rt : Nat) :
    AIProviderResponse × HistoryMap × List String :=
  if !configured then
    (failureResponse .claude rid rt now
      (aiProviderErrorMessage .claude "Claude not configured"), hist, [])
  else
    let folded := events.foldl streamFold ("", [], 0)
    match abort with
    | some msg => (failureResponse .claude rid rt now msg, hist, folded.2.1)
    | none =>
      let fullText := folded.1
      let totalOutputTokens := folded.2.2
      let newHist := historySet hist req.filePath
        (storeInHistory (historyGet hist req.filePath) req.question fullText now)
      ({ id := rid, text := fullText, provider := .claude, responseTime := rt,
         timestamp := now,
         tokenUsage := ⟨0, totalOutputTokens, 0 + totalOutputTokens⟩,
         success := true, error := none }, newHist, folded.2.1)

end ClaudeProvider

/-! ## GeminiProvider (gemini.ts), non-streaming path -/

namespace GeminiProvider

/-- Outcome of the fetch performed by callGeminiAPI: a decoded JSON body
(from which sendRequest reads candidates[0].content.parts[0].text and
candidates[0].finishReason), a non-ok HTTP status with its error detail,
or a rejection of fetch itself. -/
inductive GeminiApiOutcome where
  | resolves (text : Option String) (finishReason : Option String)
  | httpError (status : Nat) (detail : String)
  | networkThrows (msg : String)
deriving DecidableEq, Repr

/-- The error message callGeminiAPI rethrows as an AIProviderError. -/
def apiCallError (o : GeminiApiOutcome) : Option String :=
  match o with
  | .httpError status detail =>
    some (aiProviderErrorMessage .gemini
      ("Failed to call Gemini API: API Error " ++ toString status ++ ": " ++ detail))
  | .networkThrows msg =>
    some (aiProviderErrorMessage .gemini ("Failed to call Gemini API: " ++ msg))
  | .resolves _ _ => none

/-- parseResponse: candidates[0].content.parts[0].text; missing or empty
text raises an AIProviderError. -/
def parseResponse (text : Option String) : Except String String :=
  match text with
  | some t =>
    if t == "" then
      .error (aiProviderErrorMessage .gemini "Could not parse API response")
    else .ok t
  | none => .error (aiProviderErrorMessage .gemini "Could not parse API response")

/-- GeminiProvider.sendRequest. hasApiKey is the this.apiKey guard. The
catch block of gemini.ts reports the caught message unchanged (no
friendly rewriting). -/
def sendRequest (hasApiKey : Bool) (api : GeminiApiOutcome)
    (hist : HistoryMap) (req : AIProviderRequest) (rid : String)
    (now rt : Nat) : AIProviderResponse × HistoryMap :=
  if !hasApiKey then
    (failureResponse .gemini rid rt now
      (aiProviderErrorMessage .gemini
        "API key not configured. Please add your Gemini API key in settings."), hist)
  else
    match apiCallError api, api with
    | some m, _ => (failureResponse .gemini rid rt now m, hist)
    | none, .resolves text finishReason =>
      (match parseResponse text with
      | .error m => (failureResponse .gemini rid rt now m, hist)
      | .ok t =>
        let prompt := buildPrompt req
        let newHist := historySet hist req.filePath
          (storeInHistory (historyGet hist req.filePath) req.question t now)
        ({ id := rid, text := t, provider := .gemini, responseTime := rt,
           timestamp := now, tokenUsage := estimateTokenUsage prompt t,
           success := true, error := none, stopReason := finishReason }, newHist))
    | none, .httpError _ _ => (failureResponse .gemini rid rt now "", hist)
    | none, .networkThrows _ => (failureResponse .gemini rid rt now "", hist)

end GeminiProvider

/-! ## OpenAIProvider, non-streaming path -/

namespace OpenAIProvider

/-- Outcome of the fetch performed by callOpenAIAPI: a decoded JSON body
(choices[0].message.content, usage counts, choices[0].finish_reason), a
non-ok HTTP status with its error detail, or a rejection of fetch. -/
inductive OpenAIApiOutcome where
  | resolves (content : Option String) (promptTokens completionTokens totalTokens : Nat)
      (finishReason : Option String)
  | httpError (status : Nat) (detail : String)
  | networkThrows (msg : String)
deriving DecidableEq, Repr

/-- The error message callOpenAIAPI rethrows as an AIProviderError. -/
def apiCallError (o : OpenAIApiOutcome) : Option String :=
  match o with
  | .httpError status detail =>
    some (aiProviderErrorMessage .openai
      ("Failed to call OpenAI API: API Error " ++ toString status ++ ": " ++ detail))
  | .networkThrows msg =>
    some (aiProviderErrorMessage .openai ("Failed to call OpenAI API: " ++ msg))
  | .resolves _ _ _ _ _ => none

/-- The error rewriting in the catch block of OpenAIProvider.sendRequest. -/
def friendlyMessage (msg : String) : String :=
  if strContains msg "401" then
    "Invalid API key. Please check your OpenAI API key."
  else if strContains msg "429" then
    "Rate limit exceeded. Please try again in a moment."
  else if strContains msg "503" then
    "OpenAI API is temporarily unavailable."
  else if strContains msg "insufficient_quota" then
    "Insufficient quota. Please check your OpenAI billing."
  else msg

/-- parseResponse: choices[0].message.content; missing or empty content
raises an AIProviderError. -/
def parseResponse (content : Option String) : Except String String :=
  match content with
  | some t =>
    if t == "" then
      .error (aiProviderErrorMessage .openai "Could not parse API response")
    else .ok t
  | none => .error (aiProviderErrorMessage .openai "Could not parse API response")

/-- OpenAIProvider.sendRequest. -/
def sendRequest (hasApiKey : Bool) (api : OpenAIApiOutcome)
    (hist : HistoryMap) (req : AIProviderRequest) (rid : String)
    (now rt : Nat) : AIProviderResponse × HistoryMap :=
  if !hasApiKey then
    (failureResponse .openai rid rt now
      (friendlyMessage (aiProviderErrorMessage .openai
        "OpenAI API key not configured. Please add your API key in settings.")), hist)
  else
    match apiCallError api, api with
    | some m, _ => (failureResponse .openai rid rt now (friendlyMessage m), hist)
    | none, .resolves content pTok cTok tTok finishReason =>
      (match parseResponse content with
      | .error m => (failureResponse .openai rid rt now (friendlyMessage m), hist)
      | .ok t =>
        let newHist := historySet hist req.filePath
          (storeInHistory (historyGet hist req.filePath) req.question t now)
        ({ id := rid, text := t, provider := .openai, responseTime := rt,
           timestamp := now,
           tokenUsage := ⟨pTok, cTok, tTok⟩,
           success := true, error := none, stopReason := finishReason }, newHist))
    | none, .httpError _ _ => (failureResponse .openai rid rt now "", hist)
    | none, .networkThrows _ => (failureResponse .openai rid rt now "", hist)

/-! ### Streaming parse of callOpenAIStreamingAPI

The read loop accumulates a byte buffer, splits it on newlines, parses
every complete line and retains the trailing partial line. A line is
first trimmed; the sentinel data: [DONE] is skipped; a data: line is
JSON-parsed, a parse failure is logged and skipped, and a present
choices[0].delta.content is appended to the full text and emitted through
onChunk. JSON.parse and the delta extraction are a platform primitive,
modelled as an explicit decoder argument. -/

/-- What the JSON decode of one data: payload yields: a parse failure, a
parse success without a (truthy) choices[0].delta.content, or the content
text. -/
inductive DecodeResult where
  | parseFailure
  | noContent
  | content (t : String)
deriving DecidableEq, Repr

/-- State of the streaming read loop: the retained partial line, the
accumulated full text, the onChunk arguments so far and the number of
malformed (logged and skipped) data: lines. -/
structure StreamState where
  buffer : List Char
  fullText : String
  chunks : List String
  malformed : Nat
deriving DecidableEq, Repr

/-- The initial stream state. -/
def initialStreamState : StreamState where
  buffer := []
  fullText := ""
  chunks := []
  malformed := 0

/-- Split a character list on newline characters; always returns at
least one (possibly empty) segment, the last being the trailing text
after the final newline (JavaScript String.prototype.split). -/
def splitNl : List Char → List (List Char)
  | [] => [[]]
  | c :: rest =>
    if c == '\n' then [] :: splitNl rest
    else
      match splitNl rest with
      | l :: ls => (c :: l) :: ls
      | [] => [[c]]

/-- JavaScript String.prototype.trim on a character list. -/
def trimChars (l : List Char) : List Char :=
  ((l.dropWhile Char.isWhitespace).reverse.dropWhile Char.isWhitespace).reverse

/-- Processing of one complete line of the stream. -/
def processLine (dec : String → DecodeResult) (st : StreamState)
    (raw : List Char) : StreamState :=
  let line := trimChars raw
  if line == "data: [DONE]".data then st
  else if charsStartWith line "data: ".data then
    match dec (String.mk (line.drop 6)) with
    | .content t =>
      { st with fullText := st.fullText ++ t, chunks := st.chunks ++ [t] }
    | .noContent => st
    | .parseFailure => { st with malformed := st.malformed + 1 }
  else st

/-- Processing of one read chunk: append to the buffer, split on
newlines, process all complete lines, retain the last segment. -/
def processChunk (dec : String → DecodeResult) (st : StreamState)
    (chunk : String) : StreamState :=
  let lines := splitNl (st.buffer ++ chunk.data)
  let st1 := lines.dropLast.foldl (processLine dec) st
  { st1 with buffer := lines.getLastD [] }

/-- The whole read loop of callOpenAIStreamingAPI over a sequence of
read chunks. -/
def processStream (dec : String → DecodeResult) (chunks : List String) :
    StreamState :=
  chunks.foldl (processChunk dec) initialStreamState

end OpenAIProvider

/-! ## Characterization helpers for the streaming parse -/

/-- Concatenation of a list of strings in order. -/
def concatStrings : List String → String
  | [] => ""
  | s :: rest => s ++ concatStrings rest

namespace OpenAIProvider

/-- The text emitted (through onChunk) by one complete line, if any. -/
def lineEmission (dec : String → DecodeResult) (raw : List Char) :
    Option String :=
  let line := trimChars raw
  if line == "data: [DONE]".data then none
  else if charsStartWith line "data: ".data then
    match dec (String.mk (line.drop 6)) with
    | .content t => some t
    | .noContent => none
    | .parseFailure => none
  else none

/-- Whether one complete line is a malformed data: line (logged and
skipped). -/
def lineMalformed (dec : String → DecodeResult) (raw : List Char) : Bool :=
  let line := trimChars raw
  if line == "data: [DONE]".data then false
  else if charsStartWith line "data: ".data then
    match dec (String.mk (line.drop 6)) with
    | .content _ => false
    | .noContent => false
    | .parseFailure => true
  else false

/-- All characters of a chunk sequence, in arrival order. -/
def allStreamChars (chunks : List String) : List Char :=
  (chunks.map String.data).flatten

/-- The complete (newline-terminated) lines of a chunk sequence. -/
def completeLines (chunks : List String) : List (List Char) :=
  (splitNl (allStreamChars chunks)).dropLast

/-- The trailing partial line (text after the last newline) of a chunk
sequence. -/
def trailingLine (chunks : List String) : List Char :=
  (splitNl (allStreamChars chunks)).getLastD []

/-- Prepend a prefix onto the first segment of a split. -/
def consHead (x : List Char) : List (List Char) → List (List Char)
  | [] => [x]
  | y :: ys => (x ++ y) :: ys

/-- Outcome of the fetch performed by callOpenAIStreamingAPI: a failure
before any chunk is read (non-ok status, missing body, rejected fetch),
or the sequence of decoded text chunks handed to the read loop. -/
inductive OpenAIStreamSetup where
  | failsBefore (msg : String)
  | streams (chunks : List String)
deriving DecidableEq, Repr

/-- Total content length of the messages array built by buildMessages:
the system prompt, the conversation history contents and the user
prompt. -/
def messagesContentLength (history : List ConversationMessage)
    (prompt : String) : Nat :=
  DEFAULT_PROMPT_TEMPLATE_system.length
    + (history.map (fun m => m.content.length)).sum + prompt.length

/-- OpenAIProvider.sendRequestStream. Returns the canonical response,
the updated history map and the onChunk arguments in call order. -/
def sendRequestStream (hasApiKey : Bool) (dec : String → DecodeResult)
    (setup : OpenAIStreamSetup) (hist : HistoryMap) (req : AIProviderRequest)
    (rid : String) (now rt : Nat) :
    AIProviderResponse × HistoryMap × List String :=
  if !hasApiKey then
    (failureResponse .openai rid rt now
      (aiProviderErrorMessage .openai "OpenAI API key not configured"), hist, [])
  else
    match setup with
    | .failsBefore msg =>
      (failureResponse .openai rid rt now
        (aiProviderErrorMessage .openai ("Streaming failed: " ++ msg)), hist, [])
    | .streams cs =>
      let st := processStream dec cs
      let fullText := st.fullText
      let history := historyGet hist req.filePath
      let prompt := buildPrompt req
      let inputTokens := (messagesContentLength history prompt + 3) / 4
      let outputTokens := (fullText.length + 3) / 4
      let newHist := historySet hist req.filePath
        (storeInHistory history req.question fullText now)
      ({ id := rid, text := fullText, provider := .openai, responseTime := rt,
         timestamp := now,
         tokenUsage := ⟨inputTokens, outputTokens, inputTokens + outputTokens⟩,
         success := true, error := none }, newHist, st.chunks)

end OpenAIProvider

/-! ## Response-shape predicate shared by the adapter claims -/

/-- A canonical response is in one of the two legal shapes: a success
with no error field, or a captured failure with empty text and the error
field set. -/
def capturedOutcome (r : AIProviderResponse) : Prop :=
  (r.success = true ∧ r.error = none) ∨
  (r.success = false ∧ r.text = "" ∧ r.error.isSome = true)

/-! ## Concrete sample inputs for witnesses and counterexamples -/

/-- A concrete canonical request. -/
def sampleRequest : AIProviderRequest where
  question := "Why undefined?"
  codeContext := "const u = undefined; u.name"
  errorMessage := "Cannot read property name of undefined"
  filePath := "app.ts"
  errorType := "Runtime Error"

/-- The same question and error text as sampleRequest, different file
and code context. -/
def sampleRequestOtherFile : AIProviderRequest where
  question := "Why undefined?"
  codeContext := "const v = undefined; v.name"
  errorMessage := "Cannot read property name of undefined"
  filePath := "other.ts"
  errorType := "Runtime Error"

/-- A concrete successful canonical response attributed to claude. -/
def sampleClaudeResponse : AIProviderResponse where
  id := "claude_1_a"
  text := "Because u is undefined before access."
  provider := .claude
  responseTime := 120
  timestamp := 1000
  tokenUsage := ⟨40, 12, 52⟩
  success := true

/-- A concrete failure canonical response attributed to gemini, as the
gemini adapter returns when its API key is missing. -/
def sampleGeminiFailure : AIProviderResponse where
  id := "gemini_1_b"
  text := ""
  provider := .gemini
  responseTime := 2
  timestamp := 1000
  tokenUsage := ⟨0, 0, 0⟩
  success := false
  error := some "[gemini] API key not configured. Please add your Gemini API key in settings."

/-- Manager state with gemini active and an empty cache. -/
def sampleState : ProviderManager.ManagerState where
  activeProvider := .gemini
  responseCache := []

/-- Environment for the total-failure scenario: gemini and claude are
available, every adapter call times out. -/
def envAllTimeout : ProviderManager.ManagerEnv where
  available := fun p =>
    match p with
    | .gemini => true
    | .claude => true
    | _ => false
  call := fun _ _ => .timesOut

/-- Environment in which the active gemini resolves a failure response
on the first attempt. -/
def envResolvedFailure : ProviderManager.ManagerEnv where
  available := fun p =>
    match p with
    | .gemini => true
    | _ => false
  call := fun _ _ => .resolves sampleGeminiFailure

/-- Environment for the fallback scenario: the active gemini is
unavailable, claude and openai are available fallback candidates, claude
resolves a failure response, openai would resolve a success. -/
def envFallbackResolves : ProviderManager.ManagerEnv where
  available := fun p =>
    match p with
    | .gemini => false
    | .claude => true
    | .openai => true
    | _ => false
  call := fun p _ =>
    match p with
    | .claude => .resolves sampleGeminiFailure
    | .openai => .resolves sampleClaudeResponse
    | _ => .timesOut

/-- Environment for the fallback witness: the active gemini times out on
every attempt, claude times out once, openai resolves a success. -/
def envFallbackWitness : ProviderManager.ManagerEnv where
  available := fun p =>
    match p with
    | .gemini => true
    | .claude => true
    | .openai => true
    | _ => false
  call := fun p _ =>
    match p with
    | .openai => .resolves sampleClaudeResponse
    | _ => .timesOut

/-- Six concrete exchanges (more than five). -/
def sixExchanges : List Exchange :=
  [⟨"q1", "a1", 1⟩, ⟨"q2", "a2", 2⟩, ⟨"q3", "a3", 3⟩,
   ⟨"q4", "a4", 4⟩, ⟨"q5", "a5", 5⟩, ⟨"q6", "a6", 6⟩]

/-- A concrete one-entry response cache under a literal key. -/
def sampleCache : ProviderManager.ResponseCache :=
  [("k1", sampleClaudeResponse)]

/-- Manager state whose cache holds sampleClaudeResponse under the cache
key of sampleRequest. -/
def sampleCachedState : ProviderManager.ManagerState where
  activeProvider := .gemini
  responseCache :=
    [(ProviderManager.generateCacheKey sampleRequest, sampleClaudeResponse)]

/-- Outcome of the Manager on a request whose active adapter resolves a
failure response on the first attempt. -/
def resolvedFailureOutcome : ProviderManager.SendOutcome :=
  ProviderManager.sendRequest envResolvedFailure DEFAULT_PROVIDER_CONFIG
    sampleState sampleRequest 0

/-- Outcome of the Manager on a request in which every call times out. -/
def allTimeoutOutcome : ProviderManager.SendOutcome :=
  ProviderManager.sendRequest envAllTimeout DEFAULT_PROVIDER_CONFIG
    sampleState sampleRequest 0

/-- Outcome of the Manager in the fallback scenario of
envFallbackResolves. -/
def fallbackResolvesOutcome : ProviderManager.SendOutcome :=
  ProviderManager.sendRequest envFallbackResolves DEFAULT_PROVIDER_CONFIG
    sampleState sampleRequest 0

/-- The canonical response of a claude streaming call that is configured
but receives no stream events. -/
def emptyStreamResponse : AIProviderResponse :=
  (ClaudeProvider.sendRequestStream true [] none [] sampleRequest "id1" 5 7).1

/-- A concrete decoder standing for JSON.parse plus the delta-content
extraction, keyed on three literal payloads. -/
def sampleDecoder : String → OpenAIProvider.DecodeResult := fun s =>
  if s == "one" then .content "Hello, "
  else if s == "two" then .content "world!"
  else if s == "skip" then .noContent
  else .parseFailure

/-- A concrete chunked stream whose first read ends mid-line: the events
decode to the fragments Hello, and world!, then the done sentinel. -/
def sampleStreamChunks : List String :=
  ["data: one\nda", "ta: two\ndata: [DONE]\n"]

/-- The done sentinel as a raw line. -/
def sampleDoneLine : List Char := "data: [DONE]".data

/-! Helper lemmas about takeLast and storeInHistory. -/

theorem takeLast_length (n : Nat) (l : List α) :
    (takeLast n l).length = min n l.length := by
  simp [takeLast]
  omega

theorem ite_drop_eq_takeLast (l : List α) :
    (if l.length > 10 then l.drop (l.length - 10) else l) = takeLast 10 l := by
  simp only [takeLast]
  split
  · rfl
  · next hle =>
    have h0 : l.length - 10 = 0 := by omega
    rw [h0, List.drop_zero]

theorem storeInHistory_eq_takeLast (h : List ConversationMessage) (e : Exchange) :
    storeInHistory h e.question e.response e.time = takeLast 10 (h ++ e.messages) := by
  simp only [storeInHistory, Exchange.messages]
  exact ite_drop_eq_takeLast _

theorem takeLast_append_takeLast (n : Nat) (a b : List α) :
    takeLast n (takeLast n a ++ b) = takeLast n (a ++ b) := by
  simp only [takeLast, List.length_append, List.length_drop,
    List.drop_append_eq_append_drop, List.drop_drop]
  congr 1
  · congr 1
    omega
  · congr 1
    omega

theorem foldl_storeInHistory (exs : List Exchange) (h : List ConversationMessage) :
    exs.foldl (fun h e => storeInHistory h e.question e.response e.time) (takeLast 10 h) =
      takeLast 10 (h ++ allMessages exs) := by
  induction exs generalizing h with
  | nil => simp [allMessages]
  | cons e rest ih =>
    rw [List.foldl_cons, storeInHistory_eq_takeLast, takeLast_append_takeLast,
      ih (h ++ e.messages)]
    simp [allMessages, List.append_assoc]

theorem appendExchanges_eq_takeLast (exs : List Exchange) :
    appendExchanges exs = takeLast 10 (allMessages exs) := by
  have base : ([] : List ConversationMessage) = takeLast 10 [] := rfl
  have := foldl_storeInHistory exs []
  simpa [appendExchanges, takeLast] using this

theorem allMessages_length (exs : List Exchange) :
    (allMessages exs).length = 2 * exs.length := by
  induction exs with
  | nil => rfl
  | cons e rest ih =>
    simp only [allMessages, List.map_cons, List.flatten_cons, List.length_append,
      List.length_cons] at ih ⊢
    have he : (Exchange.messages e).length = 2 := rfl
    omega

theorem alternatesUA_drop_two (l : List ConversationMessage)
    (hl : alternatesUA l = true) : alternatesUA (l.drop 2) = true := by
  match l with
  | [] => simpa using hl
  | [x] => simp [alternatesUA] at hl
  | u :: a :: rest =>
    simp only [alternatesUA, Bool.and_eq_true] at hl
    simpa using hl.2

theorem alternatesUA_drop_even (k : Nat) (l : List ConversationMessage)
    (hl : alternatesUA l = true) : alternatesUA (l.drop (2 * k)) = true := by
  induction k generalizing l with
  | zero => simpa using hl
  | succ n ih =>
    have h2 : l.drop (2 * (n + 1)) = (l.drop 2).drop (2 * n) := by
      rw [List.drop_drop]
      congr 1
      omega
    rw [h2]
    exact ih _ (alternatesUA_drop_two l hl)

theorem alternatesUA_allMessages (exs : List Exchange) :
    alternatesUA (allMessages exs) = true := by
  induction exs with
  | nil => rfl
  | cons e rest ih =>
    simp only [allMessages, List.map_cons, List.flatten_cons] at *
    simpa [Exchange.messages, alternatesUA] using ih

/-! ## Claim C5 and C10: conversation history invariants -/

/-- Claim C5: for every sequence of appended exchanges, the history
length after each append is at most 10 (it equals min (2 n) 10); the
retained entries are always the most recent 10 messages in original
order; and after more than 5 exchanges the length is exactly 10. -/
theorem history_cap_invariant (exs : List Exchange) :
    (appendExchanges exs).length = min (2 * exs.length) 10 ∧
    appendExchanges exs = takeLast 10 (allMessages exs) ∧
    (5 < exs.length → (appendExchanges exs).length = 10) := by
  have he := appendExchanges_eq_takeLast exs
  have hl : (appendExchanges exs).length = min 10 (allMessages exs).length := by
    rw [he, takeLast_length]
  rw [allMessages_length] at hl
  exact ⟨by omega, he, fun h5 => by omega⟩

/-- Witness for C5 at a concrete six-exchange sequence. -/
theorem history_cap_invariant_witness :
    5 < sixExchanges.length ∧ (appendExchanges sixExchanges).length = 10 :=
  ⟨by decide, (history_cap_invariant sixExchanges).2.2 (by decide)⟩

/-- Claim C10: after any sequence of appends the stored history has even
length and strictly alternates user, assistant, user, assistant, ...
(pairs are appended atomically and eviction removes whole pairs from the
front). -/
theorem history_roles_alternate (exs : List Exchange) :
    alternatesUA (appendExchanges exs) = true := by
  rw [appendExchanges_eq_takeLast]
  unfold takeLast
  have h2 : (allMessages exs).length - 10 = 2 * (exs.length - 5) := by
    rw [allMessages_length]
    omega
  rw [h2]
  exact alternatesUA_drop_even _ _ (alternatesUA_allMessages exs)

/-! ## Claim C6: cache TTL -/

/-- Claim C6: a cache lookup strictly more than CACHE_TTL milliseconds
after the stored timestamp of the entry deletes the entry and reports a
miss; a lookup within the TTL returns the stored response unchanged and
leaves the cache unchanged. -/
theorem cache_ttl_lookup (c : ProviderManager.ResponseCache) (k : String)
    (now : Nat) (r : AIProviderResponse)
    (hfind : ProviderManager.cacheFind c k = some r) :
    (r.timestamp + ProviderManager.CACHE_TTL < now →
      ProviderManager.getFromCache c k now =
        (none, ProviderManager.cacheDelete c k)) ∧
    (now ≤ r.timestamp + ProviderManager.CACHE_TTL →
      ProviderManager.getFromCache c k now = (some r, c)) := by
  unfold ProviderManager.getFromCache
  rw [hfind]
  dsimp only
  constructor
  · intro h
    rw [if_pos (show now - r.timestamp > ProviderManager.CACHE_TTL by omega)]
  · intro h
    rw [if_neg (show ¬ now - r.timestamp > ProviderManager.CACHE_TTL by omega)]

/-- Witness for C6: an expired lookup misses and purges, a fresh lookup
returns the entry (sampleClaudeResponse is stored at timestamp 1000 and
the TTL is 300000 ms). -/
theorem cache_ttl_lookup_witness :
    ProviderManager.getFromCache sampleCache "k1" 400000 =
      (none, ProviderManager.cacheDelete sampleCache "k1") ∧
    ProviderManager.getFromCache sampleCache "k1" 2000 =
      (some sampleClaudeResponse, sampleCache) :=
  ⟨(cache_ttl_lookup sampleCache "k1" 400000 sampleClaudeResponse
      (by decide)).1 (by decide),
   (cache_ttl_lookup sampleCache "k1" 2000 sampleClaudeResponse
      (by decide)).2 (by decide)⟩

/-! ## Claim C2: a resolved failure response is cached and returned -/

/-- Claim C2 (divergence): when the active adapter resolves a response
with success = false on the first attempt, the Manager does NOT treat it
as a failed attempt: the failure response is written to the cache and
returned at once, with no backoff sleep, no retry and no fallback. -/
theorem resolved_failure_is_cached_and_returned :
    resolvedFailureOutcome.result = .ok sampleGeminiFailure ∧
    resolvedFailureOutcome.state.responseCache =
      [(ProviderManager.generateCacheKey sampleRequest, sampleGeminiFailure)] ∧
    resolvedFailureOutcome.calls = [.gemini] ∧
    resolvedFailureOutcome.sleeps = [] ∧
    sampleGeminiFailure.success = false :=
  ⟨rfl, rfl, rfl, rfl, rfl⟩

/-! ## Adapter response-shape helpers -/

theorem failureResponse_shape (p : AIProviderType) (rid : String) (rt now : Nat)
    (msg : String) : capturedOutcome (failureResponse p rid rt now msg) :=
  Or.inr ⟨rfl, rfl, rfl⟩

theorem claude_sendRequest_shape (configured : Bool)
    (api : ClaudeProvider.ClaudeApiOutcome) (hist : HistoryMap)
    (req : AIProviderRequest) (rid : String) (now rt : Nat) :
    capturedOutcome (ClaudeProvider.sendRequest configured api hist req rid now rt).1 ∧
    ((ClaudeProvider.sendRequest configured api hist req rid now rt).1.success = true →
      (ClaudeProvider.sendRequest configured api hist req rid now rt).1.text ≠ "") := by
  unfold ClaudeProvider.sendRequest
  cases configured with
  | false => exact ⟨Or.inr ⟨rfl, rfl, rfl⟩, fun h => Bool.noConfusion h⟩
  | true =>
    cases api with
    | throws msg => exact ⟨Or.inr ⟨rfl, rfl, rfl⟩, fun h => Bool.noConfusion h⟩
    | resolves p =>
      obtain ⟨pt, pi, po, ps⟩ := p
      cases pt with
      | none => exact ⟨Or.inr ⟨rfl, rfl, rfl⟩, fun h => Bool.noConfusion h⟩
      | some t =>
        cases htt : (t == "") with
        | true =>
          simp only [ClaudeProvider.parseResponse, htt, if_true]
          exact ⟨Or.inr ⟨rfl, rfl, rfl⟩, fun h => Bool.noConfusion h⟩
        | false =>
          simp only [ClaudeProvider.parseResponse, htt, Bool.false_eq_true,
            if_false]
          exact ⟨Or.inl ⟨rfl, rfl⟩, fun _ => by simpa using htt⟩

theorem gemini_sendRequest_shape (hasApiKey : Bool)
    (api : GeminiProvider.GeminiApiOutcome) (hist : HistoryMap)
    (req : AIProviderRequest) (rid : String) (now rt : Nat) :
    capturedOutcome (GeminiProvider.sendRequest hasApiKey api hist req rid now rt).1 ∧
    ((GeminiProvider.sendRequest hasApiKey api hist req rid now rt).1.success = true →
      (GeminiProvider.sendRequest hasApiKey api hist req rid now rt).1.text ≠ "") := by
  unfold GeminiProvider.sendRequest
  cases hasApiKey with
  | false => exact ⟨Or.inr ⟨rfl, rfl, rfl⟩, fun h => Bool.noConfusion h⟩
  | true =>
    cases api with
    | httpError status detail =>
      exact ⟨Or.inr ⟨rfl, rfl, rfl⟩, fun h => Bool.noConfusion h⟩
    | networkThrows msg =>
      exact ⟨Or.inr ⟨rfl, rfl, rfl⟩, fun h => Bool.noConfusion h⟩
    | resolves text finishReason =>
      cases text with
      | none => exact ⟨Or.inr ⟨rfl, rfl, rfl⟩, fun h => Bool.noConfusion h⟩
      | some t =>
        cases htt : (t == "") with
        | true =>
          simp only [GeminiProvider.apiCallError, GeminiProvider.parseResponse,
            htt, if_true]
          exact ⟨Or.inr ⟨rfl, rfl, rfl⟩, fun h => Bool.noConfusion h⟩
        | false =>
          simp only [GeminiProvider.apiCallError, GeminiProvider.parseResponse,
            htt, Bool.false_eq_true, if_false]
          exact ⟨Or.inl ⟨rfl, rfl⟩, fun _ => by simpa using htt⟩

theorem openai_sendRequest_shape (hasApiKey : Bool)
    (api : OpenAIProvider.OpenAIApiOutcome) (hist : HistoryMap)
    (req : AIProviderRequest) (rid : String) (now rt : Nat) :
    capturedOutcome (OpenAIProvider.sendRequest hasApiKey api hist req rid now rt).1 ∧
    ((OpenAIProvider.sendRequest hasApiKey api hist req rid now rt).1.success = true →
      (OpenAIProvider.sendRequest hasApiKey api hist req rid now rt).1.text ≠ "") := by
  unfold OpenAIProvider.sendRequest
  cases hasApiKey with
  | false => exact ⟨Or.inr ⟨rfl, rfl, rfl⟩, fun h => Bool.noConfusion h⟩
  | true =>
    cases api with
    | httpError status detail =>
      exact ⟨Or.inr ⟨rfl, rfl, rfl⟩, fun h => Bool.noConfusion h⟩
    | networkThrows msg =>
      exact ⟨Or.inr ⟨rfl, rfl, rfl⟩, fun h => Bool.noConfusion h⟩
    | resolves content pTok cTok tTok finishReason =>
      cases content with
      | none => exact ⟨Or.inr ⟨rfl, rfl, rfl⟩, fun h => Bool.noConfusion h⟩
      | some t =>
        cases htt : (t == "") with
        | true =>
          simp only [OpenAIProvider.apiCallError, OpenAIProvider.parseResponse,
            htt, if_true]
          exact ⟨Or.inr ⟨rfl, rfl, rfl⟩, fun h => Bool.noConfusion h⟩
        | false =>
          simp only [OpenAIProvider.apiCallError, OpenAIProvider.parseResponse,
            htt, Bool.false_eq_true, if_false]
          exact ⟨Or.inl ⟨rfl, rfl⟩, fun _ => by simpa using htt⟩

theorem claude_sendRequestStream_shape (configured : Bool)
    (events : List ClaudeProvider.ClaudeStreamEvent) (abort : Option String)
    (hist : HistoryMap) (req : AIProviderRequest) (rid : String) (now rt : Nat) :
    capturedOutcome
      (ClaudeProvider.sendRequestStream configured events abort hist req rid now rt).1 := by
  unfold ClaudeProvider.sendRequestStream
  cases configured with
  | false => exact Or.inr ⟨rfl, rfl, rfl⟩
  | true =>
    cases abort with
    | some msg => exact Or.inr ⟨rfl, rfl, rfl⟩
    | none => exact Or.inl ⟨rfl, rfl⟩

theorem capturedOutcome_implications (r : AIProviderResponse)
    (h : capturedOutcome r) :
    (r.success = false → r.text = "" ∧ r.error.isSome = true) ∧
    (r.success = true → r.error = none) := by
  rcases h with ⟨hs, he⟩ | ⟨hs, ht, he⟩
  · refine ⟨fun hf => ?_, fun _ => he⟩
    rw [hs] at hf
    exact Bool.noConfusion hf
  · refine ⟨fun _ => ⟨ht, he⟩, fun htr => ?_⟩
    rw [hs] at htr
    exact Bool.noConfusion htr

/-! ## Claim C4: adapters never throw, failures are captured -/

/-- Claim C4: the sendRequest of each of the three adapters is a total
function of its environment (it never throws): every outcome is either a
success with no error or a failure with empty text and the error string
set; and the named failure modes produce their human-readable messages:
a missing credential yields the configuration message, a rejected API
call yields the (friendly-rewritten) caught message, and a malformed
response yields the parse failure message. -/
theorem adapters_never_throw_failures_captured
    (configured : Bool) (api : ClaudeProvider.ClaudeApiOutcome)
    (hist : HistoryMap) (req : AIProviderRequest) (rid : String) (now rt : Nat)
    (msg : String) (pin pout : Nat) (sr : Option String)
    (hasKeyG : Bool) (gapi : GeminiProvider.GeminiApiOutcome)
    (hasKeyO : Bool) (oapi : OpenAIProvider.OpenAIApiOutcome) :
    capturedOutcome (ClaudeProvider.sendRequest configured api hist req rid now rt).1 ∧
    capturedOutcome (GeminiProvider.sendRequest hasKeyG gapi hist req rid now rt).1 ∧
    capturedOutcome (OpenAIProvider.sendRequest hasKeyO oapi hist req rid now rt).1 ∧
    (ClaudeProvider.sendRequest false api hist req rid now rt).1.error =
      some "[claude] Claude not configured. Please add your API key in settings." ∧
    (ClaudeProvider.sendRequest true (.throws msg) hist req rid now rt).1.error =
      some (ClaudeProvider.friendlyMessage msg) ∧
    (ClaudeProvider.sendRequest true (.resolves ⟨none, pin, pout, sr⟩)
        hist req rid now rt).1.error =
      some "[claude] Could not parse API response" ∧
    (GeminiProvider.sendRequest false gapi hist req rid now rt).1.error =
      some "[gemini] API key not configured. Please add your Gemini API key in settings." ∧
    (OpenAIProvider.sendRequest false oapi hist req rid now rt).1.error =
      some "[openai] OpenAI API key not configured. Please add your API key in settings." :=
  ⟨(claude_sendRequest_shape configured api hist req rid now rt).1,
   (gemini_sendRequest_shape hasKeyG gapi hist req rid now rt).1,
   (openai_sendRequest_shape hasKeyO oapi hist req rid now rt).1,
   rfl, rfl, rfl, rfl, rfl⟩

/-! ## Claim C9: response invariant, corrected -/

/-- Claim C9 counterexample: a configured claude streaming call whose
stream terminates without any text delta produces empty text together
with success true and no error, contradicting the claimed exclusion of
that state. -/
theorem empty_stream_success_no_error :
    emptyStreamResponse.text = "" ∧ emptyStreamResponse.success = true ∧
    emptyStreamResponse.error = none :=
  ⟨rfl, rfl, rfl⟩

/-- Claim C9 (amended): for responses of claude sendRequest and
sendRequestStream and of the gemini and openai sendRequest: success
false implies empty text and the error set; success true implies no
error; for the non-streaming sendRequest success true moreover implies
non-empty text, while a streamed response may be empty with success
true. -/
theorem response_invariant
    (configured : Bool) (api : ClaudeProvider.ClaudeApiOutcome)
    (events : List ClaudeProvider.ClaudeStreamEvent) (abort : Option String)
    (hist : HistoryMap) (req : AIProviderRequest) (rid : String) (now rt : Nat)
    (hasKeyG : Bool) (gapi : GeminiProvider.GeminiApiOutcome)
    (hasKeyO : Bool) (oapi : OpenAIProvider.OpenAIApiOutcome) :
    ((ClaudeProvider.sendRequest configured api hist req rid now rt).1.success = false →
      (ClaudeProvider.sendRequest configured api hist req rid now rt).1.text = "" ∧
      (ClaudeProvider.sendRequest configured api hist req rid now rt).1.error.isSome = true) ∧
    ((ClaudeProvider.sendRequest configured api hist req rid now rt).1.success = true →
      (ClaudeProvider.sendRequest configured api hist req rid now rt).1.error = none ∧
      (ClaudeProvider.sendRequest configured api hist req rid now rt).1.text ≠ "") ∧
    ((ClaudeProvider.sendRequestStream configured events abort hist req rid now rt).1.success = false →
      (ClaudeProvider.sendRequestStream configured events abort hist req rid now rt).1.text = "" ∧
      (ClaudeProvider.sendRequestStream configured events abort hist req rid now rt).1.error.isSome = true) ∧
    ((ClaudeProvider.sendRequestStream configured events abort hist req rid now rt).1.success = true →
      (ClaudeProvider.sendRequestStream configured events abort hist req rid now rt).1.error = none) ∧
    ((GeminiProvider.sendRequest hasKeyG gapi hist req rid now rt).1.success = false →
      (GeminiProvider.sendRequest hasKeyG gapi hist req rid now rt).1.text = "" ∧
      (GeminiProvider.sendRequest hasKeyG gapi hist req rid now rt).1.error.isSome = true) ∧
    ((GeminiProvider.sendRequest hasKeyG gapi hist req rid now rt).1.success = true →
      (GeminiProvider.sendRequest hasKeyG gapi hist req rid now rt).1.error = none ∧
      (GeminiProvider.sendRequest hasKeyG gapi hist req rid now rt).1.text ≠ "") ∧
    ((OpenAIProvider.sendRequest hasKeyO oapi hist req rid now rt).1.success = false →
      (OpenAIProvider.sendRequest hasKeyO oapi hist req rid now rt).1.text = "" ∧
      (OpenAIProvider.sendRequest hasKeyO oapi hist req rid now rt).1.error.isSome = true) ∧
    ((OpenAIProvider.sendRequest hasKeyO oapi hist req rid now rt).1.success = true →
      (OpenAIProvider.sendRequest hasKeyO oapi hist req rid now rt).1.error = none ∧
      (OpenAIProvider.sendRequest hasKeyO oapi hist req rid now rt).1.text ≠ "") := by
  have hc := claude_sendRequest_shape configured api hist req rid now rt
  have hs := claude_sendRequestStream_shape configured events abort hist req rid now rt
  have hg := gemini_sendRequest_shape hasKeyG gapi hist req rid now rt
  have ho := openai_sendRequest_shape hasKeyO oapi hist req rid now rt
  have hci := capturedOutcome_implications _ hc.1
  have hsi := capturedOutcome_implications _ hs
  have hgi := capturedOutcome_implications _ hg.1
  have hoi := capturedOutcome_implications _ ho.1
  exact ⟨hci.1, fun h => ⟨hci.2 h, hc.2 h⟩, hsi.1, hsi.2,
    hgi.1, fun h => ⟨hgi.2 h, hg.2 h⟩, hoi.1, fun h => ⟨hoi.2 h, ho.2 h⟩⟩

/-- Witness for the amended C9 at a concrete failing claude call. -/
theorem response_invariant_witness :
    (ClaudeProvider.sendRequest false (.throws "boom") [] sampleRequest
        "id2" 0 0).1.text = "" ∧
    (ClaudeProvider.sendRequest false (.throws "boom") [] sampleRequest
        "id2" 0 0).1.error.isSome = true :=
  (response_invariant false (.throws "boom") [] none [] sampleRequest "id2" 0 0
    true (.resolves none none) true (.resolves none 0 0 0 none)).1 rfl

/-! ## Manager fallback and retry-loop lemmas -/

theorem tryFallbacks_all_timeout (env : ProviderManager.ManagerEnv)
    (st : ProviderManager.ManagerState) (l : List AIProviderType)
    (hl : ∀ q ∈ l, env.call q 1 = .timesOut) :
    ProviderManager.tryFallbackProviders env st l =
      { result := .error "All fallback providers failed", state := st,
        calls := l, sleeps := [] } := by
  induction l with
  | nil => rfl
  | cons p rest ih =>
    unfold ProviderManager.tryFallbackProviders
    rw [hl p (List.mem_cons_self p rest)]
    rw [ih (fun q hq => hl q (List.mem_cons_of_mem p hq))]

theorem tryFallbacks_first_resolves (env : ProviderManager.ManagerEnv)
    (st : ProviderManager.ManagerState) (l1 : List AIProviderType)
    (p : AIProviderType) (l2 : List AIProviderType) (r : AIProviderResponse)
    (h1 : ∀ q ∈ l1, env.call q 1 = .timesOut)
    (hp : env.call p 1 = .resolves r) :
    ProviderManager.tryFallbackProviders env st (l1 ++ p :: l2) =
      { result := .ok r, state := { st with activeProvider := p },
        calls := l1 ++ [p], sleeps := [] } := by
  induction l1 with
  | nil =>
    simp only [List.nil_append]
    unfold ProviderManager.tryFallbackProviders
    rw [hp]
  | cons q rest ih =>
    simp only [List.cons_append]
    unfold ProviderManager.tryFallbackProviders
    rw [h1 q (List.mem_cons_self q rest)]
    rw [ih (fun x hx => h1 x (List.mem_cons_of_mem q hx))]

theorem sendRequestLoop_all_attempts_fail (env : ProviderManager.ManagerEnv)
    (cfg : ProviderManagerConfig) (key : String)
    (st : ProviderManager.ManagerState)
    (hfb : cfg.enableFallback = true)
    (hcall : ∀ k, env.call st.activeProvider k = .timesOut) :
    ∀ remaining attempt lastErr,
      (ProviderManager.sendRequestLoop env cfg key st remaining attempt lastErr).result =
        (ProviderManager.sendRequestWithFallback env cfg st st.activeProvider).result ∧
      (ProviderManager.sendRequestLoop env cfg key st remaining attempt lastErr).state =
        (ProviderManager.sendRequestWithFallback env cfg st st.activeProvider).state ∧
      (ProviderManager.sendRequestLoop env cfg key st remaining attempt lastErr).calls =
        (if env.available st.activeProvider then
          List.replicate remaining st.activeProvider else []) ++
          (ProviderManager.sendRequestWithFallback env cfg st st.activeProvider).calls := by
  intro remaining
  induction remaining with
  | zero =>
    intro attempt lastErr
    unfold ProviderManager.sendRequestLoop ProviderManager.afterAttempts
    rw [hfb]
    cases hav : env.available st.activeProvider <;> simp [hav]
  | succ n ih =>
    intro attempt lastErr
    cases hav : env.available st.activeProvider with
    | true =>
      obtain ⟨ir, is, ic⟩ := ih (attempt + 1)
        (some ("Request timeout after " ++ toString cfg.requestTimeout ++ "ms"))
      unfold ProviderManager.sendRequestLoop
      simp only [hav, if_true, hcall attempt]
      simp only [hav, if_true] at ic
      exact ⟨ir, is, by simp [ic, List.replicate_succ]⟩
    | false =>
      obtain ⟨ir, is, ic⟩ := ih (attempt + 1)
        (some (aiProviderErrorMessage st.activeProvider
          "Provider not available (missing API key?)"))
      unfold ProviderManager.sendRequestLoop
      simp only [hav, Bool.false_eq_true, if_false]
      simp only [hav, Bool.false_eq_true, if_false] at ic
      exact ⟨ir, is, by simp [ic]⟩

/-! ## Claim C1: total failure, corrected -/

/-- Claim C1 counterexample: with every retry attempt on the active
provider and the only fallback candidate failing (timing out), the
Manager sendRequest throws (an error outcome), and the thrown message is
the fixed string of the fallback loop rather than a success=false
canonical response carrying the last provider message. -/
theorem total_failure_throws_concrete :
    allTimeoutOutcome.result = .error "All fallback providers failed" := rfl

/-- Claim C1 (amended): on total failure with fallback enabled, the
Manager sendRequest does not return a canonical response at all: it
throws. When no fallback candidate is available the thrown message is
"No fallback providers available"; when candidates exist and all of them
fail, it is "All fallback providers failed". -/
theorem sendRequest_total_failure_throws (env : ProviderManager.ManagerEnv)
    (cfg : ProviderManagerConfig) (st : ProviderManager.ManagerState)
    (req : AIProviderRequest) (now : Nat)
    (hmiss : ProviderManager.cacheFind st.responseCache
      (ProviderManager.generateCacheKey req) = none)
    (hfb : cfg.enableFallback = true)
    (hcall : ∀ p k, env.call p k = .timesOut) :
    (ProviderManager.sendRequest env cfg st req now).result =
      .error (if ((ProviderManager.getAvailableProviders env cfg).filter
          (fun p => !(p == st.activeProvider))).isEmpty
        then "No fallback providers available"
        else "All fallback providers failed") := by
  have hget : ProviderManager.getFromCache st.responseCache
      (ProviderManager.generateCacheKey req) now = (none, st.responseCache) := by
    unfold ProviderManager.getFromCache
    rw [hmiss]
  have hred : ProviderManager.sendRequest env cfg st req now =
      ProviderManager.sendRequestLoop env cfg
        (ProviderManager.generateCacheKey req) st cfg.maxRetries 1 none := by
    unfold ProviderManager.sendRequest
    simp only [hget]
  rw [hred]
  rw [(sendRequestLoop_all_attempts_fail env cfg _ st hfb
    (fun k => hcall _ k) cfg.maxRetries 1 none).1]
  unfold ProviderManager.sendRequestWithFallback
  dsimp only
  cases hemp : ((ProviderManager.getAvailableProviders env cfg).filter
      (fun p => !(p == st.activeProvider))).isEmpty with
  | true => simp [hemp]
  | false =>
    simp only [hemp, Bool.false_eq_true, if_false]
    rw [tryFallbacks_all_timeout env st _ (fun q _ => hcall q 1)]

/-- Witness for the amended C1 at the concrete all-timeout scenario. -/
theorem sendRequest_total_failure_throws_witness :
    (ProviderManager.sendRequest envAllTimeout DEFAULT_PROVIDER_CONFIG
        sampleState sampleRequest 5).result =
      .error "All fallback providers failed" :=
  sendRequest_total_failure_throws envAllTimeout DEFAULT_PROVIDER_CONFIG
    sampleState sampleRequest 5 rfl rfl (fun _ _ => rfl)

/-! ## Claim C3: fallback behavior, corrected -/

/-- Claim C3 counterexample: the active gemini is unavailable; the
fallback candidates in order are claude (which resolves a success=false
response) and openai (which is available and would resolve a successful
response). The Manager returns the claude failure response, makes claude
the active provider, never tries openai, and writes nothing to the
cache. -/
theorem fallback_returns_failure_uncached_concrete :
    fallbackResolvesOutcome.result = .ok sampleGeminiFailure ∧
    fallbackResolvesOutcome.state.activeProvider = .claude ∧
    fallbackResolvesOutcome.state.responseCache = [] ∧
    fallbackResolvesOutcome.calls = [.claude] ∧
    sampleGeminiFailure.success = false ∧
    envFallbackResolves.available .openai = true ∧
    envFallbackResolves.call .openai 1 = .resolves sampleClaudeResponse ∧
    sampleClaudeResponse.success = true :=
  ⟨rfl, rfl, rfl, rfl, rfl, rfl, rfl, rfl⟩

/-- Claim C3 (amended): when the active adapter is available but every
retry attempt times out and fallback is enabled, the Manager tries the
available providers excluding the active one in configured order, each
at most once, until the first candidate whose call resolves (regardless
of the success flag of the resolved response); that candidate becomes
the new active provider and its response is returned, but it is NOT
written to the cache. -/
theorem fallback_first_resolve_sticky_uncached (env : ProviderManager.ManagerEnv)
    (cfg : ProviderManagerConfig) (st : ProviderManager.ManagerState)
    (req : AIProviderRequest) (now : Nat) (r : AIProviderResponse)
    (p : AIProviderType) (l1 l2 : List AIProviderType)
    (hmiss : ProviderManager.cacheFind st.responseCache
      (ProviderManager.generateCacheKey req) = none)
    (hav : env.available st.activeProvider = true)
    (hcall : ∀ k, env.call st.activeProvider k = .timesOut)
    (hfb : cfg.enableFallback = true)
    (hfbs : (ProviderManager.getAvailableProviders env cfg).filter
      (fun q => !(q == st.activeProvider)) = l1 ++ p :: l2)
    (h1 : ∀ q ∈ l1, env.call q 1 = .timesOut)
    (hp : env.call p 1 = .resolves r) :
    (ProviderManager.sendRequest env cfg st req now).result = .ok r ∧
    (ProviderManager.sendRequest env cfg st req now).state.activeProvider = p ∧
    (ProviderManager.sendRequest env cfg st req now).state.responseCache =
      st.responseCache ∧
    (ProviderManager.sendRequest env cfg st req now).calls =
      List.replicate cfg.maxRetries st.activeProvider ++ (l1 ++ [p]) := by
  have hfbeq : ProviderManager.sendRequestWithFallback env cfg st st.activeProvider =
      { result := .ok r, state := { st with activeProvider := p },
        calls := l1 ++ [p], sleeps := [] } := by
    unfold ProviderManager.sendRequestWithFallback
    dsimp only
    rw [hfbs]
    have hne : (l1 ++ p :: l2).isEmpty = false := by
      cases l1 <;> rfl
    rw [hne]
    simp only [Bool.false_eq_true, if_false]
    exact tryFallbacks_first_resolves env st l1 p l2 r h1 hp
  have hget : ProviderManager.getFromCache st.responseCache
      (ProviderManager.generateCacheKey req) now = (none, st.responseCache) := by
    unfold ProviderManager.getFromCache
    rw [hmiss]
  have hloop := sendRequestLoop_all_attempts_fail env cfg
    (ProviderManager.generateCacheKey req) st hfb hcall cfg.maxRetries 1 none
  have hred : ProviderManager.sendRequest env cfg st req now =
      ProviderManager.sendRequestLoop env cfg
        (ProviderManager.generateCacheKey req) st cfg.maxRetries 1 none := by
    unfold ProviderManager.sendRequest
    simp only [hget]
  rw [hred]
  obtain ⟨ir, is, ic⟩ := hloop
  refine ⟨?_, ?_, ?_, ?_⟩
  · rw [ir, hfbeq]
  · rw [is, hfbeq]
  · rw [is, hfbeq]
  · rw [ic, hfbeq, hav]
    simp

/-- Witness for the amended C3: gemini times out three times, fallback
candidate claude times out once, openai resolves; openai becomes active,
its response is returned, the cache stays empty. -/
theorem fallback_first_resolve_sticky_uncached_witness :
    (ProviderManager.sendRequest envFallbackWitness DEFAULT_PROVIDER_CONFIG
        sampleState sampleRequest 9).result = .ok sampleClaudeResponse ∧
    (ProviderManager.sendRequest envFallbackWitness DEFAULT_PROVIDER_CONFIG
        sampleState sampleRequest 9).state.activeProvider = .openai ∧
    (ProviderManager.sendRequest envFallbackWitness DEFAULT_PROVIDER_CONFIG
        sampleState sampleRequest 9).state.responseCache = [] ∧
    (ProviderManager.sendRequest envFallbackWitness DEFAULT_PROVIDER_CONFIG
        sampleState sampleRequest 9).calls =
      [.gemini, .gemini, .gemini, .claude, .openai] := by
  have h := fallback_first_resolve_sticky_uncached envFallbackWitness
    DEFAULT_PROVIDER_CONFIG sampleState sampleRequest 9 sampleClaudeResponse
    .openai [.claude] [] rfl rfl (fun _ => rfl) rfl rfl
    (fun q hq => by
      rw [List.mem_singleton] at hq
      subst hq
      rfl)
    rfl
  exact ⟨h.1, h.2.1, h.2.2.1, h.2.2.2⟩

/-! ## Claim C7: cache key fields and fresh-hit behavior -/

/-- Claim C7: the cache key is a deterministic function of question,
errorType and errorMessage only, so two requests differing only in
codeContext or filePath share a key; and on a fresh cache hit the
Manager returns the cached response immediately, with no adapter call
(conversation histories are touched only inside adapter calls), no
backoff sleep and no state change. -/
theorem cache_key_fields_and_fresh_hit
    (r1 r2 : AIProviderRequest)
    (hq : r1.question = r2.question) (ht : r1.errorType = r2.errorType)
    (hm : r1.errorMessage = r2.errorMessage)
    (env : ProviderManager.ManagerEnv) (cfg : ProviderManagerConfig)
    (st : ProviderManager.ManagerState) (req : AIProviderRequest) (now : Nat)
    (r : AIProviderResponse)
    (hhit : ProviderManager.cacheFind st.responseCache
      (ProviderManager.generateCacheKey req) = some r)
    (hfresh : now - r.timestamp ≤ ProviderManager.CACHE_TTL) :
    ProviderManager.generateCacheKey r1 = ProviderManager.generateCacheKey r2 ∧
    ProviderManager.sendRequest env cfg st req now =
      { result := .ok r, state := st, calls := [], sleeps := [] } := by
  constructor
  · unfold ProviderManager.generateCacheKey
    rw [hq, ht, hm]
  · have hget : ProviderManager.getFromCache st.responseCache
        (ProviderManager.generateCacheKey req) now = (some r, st.responseCache) := by
      unfold ProviderManager.getFromCache
      rw [hhit]
      dsimp only
      rw [if_neg (show ¬ now - r.timestamp > ProviderManager.CACHE_TTL by omega)]
    unfold ProviderManager.sendRequest
    simp only [hget]

/-- Witness for C7: sampleRequest and sampleRequestOtherFile differ only
in codeContext and filePath and share a key; a fresh hit on that key is
returned unchanged with no calls and no sleeps even though every
provider of the environment would fail. -/
theorem cache_key_fields_and_fresh_hit_witness :
    ProviderManager.generateCacheKey sampleRequest =
      ProviderManager.generateCacheKey sampleRequestOtherFile ∧
    ProviderManager.sendRequest envAllTimeout DEFAULT_PROVIDER_CONFIG
        sampleCachedState sampleRequest 2000 =
      { result := .ok sampleClaudeResponse, state := sampleCachedState,
        calls := [], sleeps := [] } :=
  cache_key_fields_and_fresh_hit sampleRequest sampleRequestOtherFile rfl rfl rfl
    envAllTimeout DEFAULT_PROVIDER_CONFIG sampleCachedState sampleRequest 2000
    sampleClaudeResponse
    (by
      unfold ProviderManager.cacheFind sampleCachedState
      rw [List.find?_cons_of_pos _ (by simp)]
      rfl)
    (by decide)

/-! ## Streaming parse lemmas (claim C8) -/

theorem splitNl_ne_nil (l : List Char) : OpenAIProvider.splitNl l ≠ [] := by
  induction l with
  | nil => simp [OpenAIProvider.splitNl]
  | cons c rest ih =>
    unfold OpenAIProvider.splitNl
    split
    · simp
    · split
      · simp
      · simp

theorem getLastD_mem_of_ne_nil {α : Type} (L : List α) (d : α) (h : L ≠ []) :
    L.getLastD d ∈ L := by
  induction L generalizing d with
  | nil => exact absurd rfl h
  | cons a rest ih =>
    cases rest with
    | nil => simp
    | cons b rs =>
      rw [List.getLastD_cons]
      exact List.mem_cons_of_mem a (ih a (by simp))

theorem getLastD_irrel {α : Type} (L : List α) (d1 d2 : α) (h : L ≠ []) :
    L.getLastD d1 = L.getLastD d2 := by
  cases L with
  | nil => exact absurd rfl h
  | cons a rest => rw [List.getLastD_cons, List.getLastD_cons]

theorem splitNl_mem_no_newline (l : List Char) :
    ∀ x ∈ OpenAIProvider.splitNl l, '\n' ∉ x := by
  induction l with
  | nil =>
    intro x hx
    simp [OpenAIProvider.splitNl] at hx
    subst hx
    simp
  | cons c rest ih =>
    intro x hx
    unfold OpenAIProvider.splitNl at hx
    by_cases hc : c == '\n'
    · rw [if_pos hc] at hx
      rcases List.mem_cons.mp hx with h | h
      · subst h
        simp
      · exact ih x h
    · rw [if_neg hc] at hx
      cases hsp : OpenAIProvider.splitNl rest with
      | nil => exact absurd hsp (splitNl_ne_nil rest)
      | cons t ts =>
        rw [hsp] at hx
        rcases List.mem_cons.mp hx with h | h
        · subst h
          intro hmem
          rcases List.mem_cons.mp hmem with h2 | h2
          · exact hc (by rw [← h2]; rfl)
          · exact ih t (by rw [hsp]; exact List.mem_cons_self t ts) h2
        · exact ih x (by rw [hsp]; exact List.mem_cons_of_mem t h)

theorem splitNl_getLastD_no_newline (l : List Char) :
    '\n' ∉ (OpenAIProvider.splitNl l).getLastD [] :=
  splitNl_mem_no_newline l _
    (getLastD_mem_of_ne_nil (OpenAIProvider.splitNl l) [] (splitNl_ne_nil l))

theorem splitNl_of_no_newline (l : List Char) (h : '\n' ∉ l) :
    OpenAIProvider.splitNl l = [l] := by
  induction l with
  | nil => rfl
  | cons c rest ih =>
    have hc : ¬ c == '\n' := by
      simp only [beq_iff_eq]
      intro hcc
      exact h (by rw [hcc]; exact List.mem_cons_self '\n' rest)
    unfold OpenAIProvider.splitNl
    rw [if_neg hc, ih (fun hm => h (List.mem_cons_of_mem c hm))]

theorem splitNl_cons_nl (c : Char) (rest : List Char) (hc : c == '\n') :
    OpenAIProvider.splitNl (c :: rest) = [] :: OpenAIProvider.splitNl rest := by
  conv_lhs => unfold OpenAIProvider.splitNl
  rw [if_pos hc]

theorem splitNl_cons_not_nl (c : Char) (rest t : List Char)
    (ts : List (List Char)) (hc : ¬ c == '\n')
    (hsp : OpenAIProvider.splitNl rest = t :: ts) :
    OpenAIProvider.splitNl (c :: rest) = (c :: t) :: ts := by
  unfold OpenAIProvider.splitNl
  rw [if_neg hc, hsp]

theorem splitNl_append (a b : List Char) :
    OpenAIProvider.splitNl (a ++ b) =
      (OpenAIProvider.splitNl a).dropLast ++
        OpenAIProvider.consHead ((OpenAIProvider.splitNl a).getLastD [])
          (OpenAIProvider.splitNl b) := by
  induction a with
  | nil =>
    simp only [List.nil_append]
    cases hb : OpenAIProvider.splitNl b with
    | nil => exact absurd hb (splitNl_ne_nil b)
    | cons t ts => simp [OpenAIProvider.splitNl, OpenAIProvider.consHead]
  | cons c rest ih =>
    by_cases hc : c == '\n'
    · rw [List.cons_append, splitNl_cons_nl c _ hc, ih, splitNl_cons_nl c rest hc]
      cases hS : OpenAIProvider.splitNl rest with
      | nil => exact absurd hS (splitNl_ne_nil rest)
      | cons s ss =>
        simp [List.getLastD_cons]
    · rw [List.cons_append]
      cases hS : OpenAIProvider.splitNl rest with
      | nil => exact absurd hS (splitNl_ne_nil rest)
      | cons s ss =>
        cases ss with
        | nil =>
          cases hT : OpenAIProvider.splitNl b with
          | nil => exact absurd hT (splitNl_ne_nil b)
          | cons t ts =>
            have hsp : OpenAIProvider.splitNl (rest ++ b) = (s ++ t) :: ts := by
              rw [ih, hS, hT]
              simp [OpenAIProvider.consHead]
            rw [splitNl_cons_not_nl c _ _ _ hc hsp,
              splitNl_cons_not_nl c rest s [] hc hS]
            simp [OpenAIProvider.consHead, hT]
        | cons s2 ss2 =>
          have hne : (s2 :: ss2 : List (List Char)) ≠ [] := by simp
          have hsp : OpenAIProvider.splitNl (rest ++ b) =
              s :: (List.dropLast (s2 :: ss2) ++
                OpenAIProvider.consHead ((s2 :: ss2).getLastD [])
                  (OpenAIProvider.splitNl b)) := by
            rw [ih, hS]
            simp only [List.dropLast_cons₂, List.getLastD_cons, List.cons_append]
          rw [splitNl_cons_not_nl c _ _ _ hc hsp,
            splitNl_cons_not_nl c rest s (s2 :: ss2) hc hS]
          simp only [List.dropLast_cons₂, List.getLastD_cons, List.cons_append]

theorem str_append_empty (s : String) : s ++ "" = s := by
  obtain ⟨data⟩ := s
  show String.mk (data ++ []) = String.mk data
  rw [List.append_nil]

theorem str_append_assoc (a b c : String) : (a ++ b) ++ c = a ++ (b ++ c) := by
  obtain ⟨da⟩ := a
  obtain ⟨db⟩ := b
  obtain ⟨dc⟩ := c
  show String.mk ((da ++ db) ++ dc) = String.mk (da ++ (db ++ dc))
  rw [List.append_assoc]

theorem concatStrings_append (a b : List String) :
    concatStrings (a ++ b) = concatStrings a ++ concatStrings b := by
  induction a with
  | nil => rfl
  | cons s rest ih =>
    show s ++ concatStrings (rest ++ b) =
      (s ++ concatStrings rest) ++ concatStrings b
    rw [ih, str_append_assoc]

theorem processLine_eq (dec : String → OpenAIProvider.DecodeResult)
    (st : OpenAIProvider.StreamState) (raw : List Char) :
    OpenAIProvider.processLine dec st raw =
      (match OpenAIProvider.lineEmission dec raw with
      | some t =>
        { st with fullText := st.fullText ++ t, chunks := st.chunks ++ [t] }
      | none =>
        if OpenAIProvider.lineMalformed dec raw then
          { st with malformed := st.malformed + 1 }
        else st) := by
  unfold OpenAIProvider.processLine OpenAIProvider.lineEmission
    OpenAIProvider.lineMalformed
  by_cases h1 : OpenAIProvider.trimChars raw == "data: [DONE]".data
  · simp [h1]
  · by_cases h2 : charsStartWith (OpenAIProvider.trimChars raw) "data: ".data
    · cases hd : dec (String.mk ((OpenAIProvider.trimChars raw).drop 6)) with
      | parseFailure => simp [h1, h2, hd]
      | noContent => simp [h1, h2, hd]
      | content t => simp [h1, h2, hd]
    · simp [h1, h2]

theorem emission_some_not_malformed (dec : String → OpenAIProvider.DecodeResult)
    (raw : List Char) (t : String)
    (he : OpenAIProvider.lineEmission dec raw = some t) :
    OpenAIProvider.lineMalformed dec raw = false := by
  unfold OpenAIProvider.lineEmission at he
  unfold OpenAIProvider.lineMalformed
  by_cases h1 : OpenAIProvider.trimChars raw == "data: [DONE]".data
  · simp [h1]
  · by_cases h2 : charsStartWith (OpenAIProvider.trimChars raw) "data: ".data
    · cases hd : dec (String.mk ((OpenAIProvider.trimChars raw).drop 6)) with
      | parseFailure => simp [h1, h2, hd] at he
      | noContent => simp [h1, h2, hd]
      | content u => simp [h1, h2, hd]
    · simp [h1, h2]

theorem foldl_processLine (dec : String → OpenAIProvider.DecodeResult)
    (ls : List (List Char)) :
    ∀ st : OpenAIProvider.StreamState,
      ls.foldl (OpenAIProvider.processLine dec) st =
        { st with
          fullText := st.fullText ++
            concatStrings (ls.filterMap (OpenAIProvider.lineEmission dec)),
          chunks := st.chunks ++ ls.filterMap (OpenAIProvider.lineEmission dec),
          malformed := st.malformed +
            (ls.filter (OpenAIProvider.lineMalformed dec)).length } := by
  induction ls with
  | nil =>
    intro st
    simp [concatStrings, str_append_empty]
  | cons x xs ih =>
    intro st
    rw [List.foldl_cons, processLine_eq]
    cases he : OpenAIProvider.lineEmission dec x with
    | some t =>
      rw [ih]
      have hm := emission_some_not_malformed dec x t he
      simp [List.filterMap_cons, he, hm, concatStrings, str_append_assoc]
    | none =>
      cases hm : OpenAIProvider.lineMalformed dec x with
      | true =>
        rw [ih]
        simp [List.filterMap_cons, he, hm]
        try omega
      | false =>
        rw [ih]
        simp [List.filterMap_cons, he, hm]

theorem getLastD_append_cons {α : Type} (X : List α) (y : α) (ys : List α)
    (d : α) : (X ++ y :: ys).getLastD d = (y :: ys).getLastD d := by
  induction X generalizing d with
  | nil => rfl
  | cons a as ih =>
    rw [List.cons_append, List.getLastD_cons, ih a]
    exact getLastD_irrel _ a d (by simp)

theorem processStream_eq (dec : String → OpenAIProvider.DecodeResult)
    (chunks : List String) :
    OpenAIProvider.processStream dec chunks =
      { buffer := OpenAIProvider.trailingLine chunks,
        fullText := concatStrings ((OpenAIProvider.completeLines chunks).filterMap
          (OpenAIProvider.lineEmission dec)),
        chunks := (OpenAIProvider.completeLines chunks).filterMap
          (OpenAIProvider.lineEmission dec),
        malformed := ((OpenAIProvider.completeLines chunks).filter
          (OpenAIProvider.lineMalformed dec)).length } := by
  induction chunks using List.reverseRecOn with
  | nil => rfl
  | append_singleton cs c ih =>
    unfold OpenAIProvider.processStream at ih ⊢
    rw [List.foldl_append, List.foldl_cons, List.foldl_nil, ih]
    unfold OpenAIProvider.processChunk
    have hA : OpenAIProvider.allStreamChars (cs ++ [c]) =
        OpenAIProvider.allStreamChars cs ++ c.data := by
      simp [OpenAIProvider.allStreamChars]
    have hL : '\n' ∉ OpenAIProvider.trailingLine cs :=
      splitNl_getLastD_no_newline _
    cases hT : OpenAIProvider.splitNl c.data with
    | nil => exact absurd hT (splitNl_ne_nil c.data)
    | cons t ts =>
      have hbuf : OpenAIProvider.splitNl
          (OpenAIProvider.trailingLine cs ++ c.data) =
          (OpenAIProvider.trailingLine cs ++ t) :: ts := by
        rw [splitNl_append, splitNl_of_no_newline _ hL, hT]
        simp [OpenAIProvider.consHead]
      have hS : OpenAIProvider.splitNl
          (OpenAIProvider.allStreamChars (cs ++ [c])) =
          (OpenAIProvider.splitNl (OpenAIProvider.allStreamChars cs)).dropLast ++
            ((OpenAIProvider.trailingLine cs ++ t) :: ts) := by
        rw [hA, splitNl_append, hT]
        simp [OpenAIProvider.consHead, OpenAIProvider.trailingLine]
      dsimp only
      simp only [hbuf]
      rw [foldl_processLine]
      simp [OpenAIProvider.completeLines, OpenAIProvider.trailingLine, hS,
        getLastD_append_cons, List.dropLast_append_cons, List.filterMap_append,
        List.filter_append, concatStrings_append, str_append_assoc,
        -List.getLastD_eq_getLast?]

/-! ## Claim C8: streaming parse -/

/-- Claim C8: the streaming read loop buffers its input and parses only
newline-terminated lines: its result depends only on the concatenation
of the reads, with the trailing partial line retained in the buffer, the
onChunk arguments being exactly the decoded fragments of the complete
lines in arrival order, the full text their concatenation, and the
malformed count the number of undecodable data: lines; a line that
neither decodes nor is malformed (in particular the done sentinel, which
is never counted malformed) leaves the state unchanged, and a malformed
line only increments the skip counter; the streamed response text equals
the concatenation of the onChunk arguments. -/
theorem streaming_parse_characterization
    (dec : String → OpenAIProvider.DecodeResult) (chunks : List String)
    (st : OpenAIProvider.StreamState) (raw : List Char)
    (hist : HistoryMap) (req : AIProviderRequest) (rid : String) (now rt : Nat) :
    OpenAIProvider.processStream dec chunks =
      { buffer := OpenAIProvider.trailingLine chunks,
        fullText := concatStrings ((OpenAIProvider.completeLines chunks).filterMap
          (OpenAIProvider.lineEmission dec)),
        chunks := (OpenAIProvider.completeLines chunks).filterMap
          (OpenAIProvider.lineEmission dec),
        malformed := ((OpenAIProvider.completeLines chunks).filter
          (OpenAIProvider.lineMalformed dec)).length } ∧
    (OpenAIProvider.processStream dec chunks).fullText =
      concatStrings (OpenAIProvider.processStream dec chunks).chunks ∧
    (OpenAIProvider.lineEmission dec raw = none →
      OpenAIProvider.lineMalformed dec raw = false →
      OpenAIProvider.processLine dec st raw = st) ∧
    (OpenAIProvider.lineMalformed dec raw = true →
      OpenAIProvider.processLine dec st raw =
        { st with malformed := st.malformed + 1 }) ∧
    (OpenAIProvider.trimChars raw = "data: [DONE]".data →
      OpenAIProvider.lineEmission dec raw = none ∧
      OpenAIProvider.lineMalformed dec raw = false) ∧
    (OpenAIProvider.sendRequestStream true dec (.streams chunks) hist req
        rid now rt).1.text =
      concatStrings (OpenAIProvider.sendRequestStream true dec (.streams chunks)
        hist req rid now rt).2.2 := by
  refine ⟨processStream_eq dec chunks, ?_, ?_, ?_, ?_, ?_⟩
  · rw [processStream_eq]
  · intro he hm
    simp [processLine_eq, he, hm]
  · intro hm
    have he : OpenAIProvider.lineEmission dec raw = none := by
      cases hee : OpenAIProvider.lineEmission dec raw with
      | none => rfl
      | some t =>
        rw [emission_some_not_malformed dec raw t hee] at hm
        cases hm
    simp [processLine_eq, he, hm]
  · intro hd
    constructor
    · unfold OpenAIProvider.lineEmission
      simp [hd]
    · unfold OpenAIProvider.lineMalformed
      simp [hd]
  · show (OpenAIProvider.processStream dec chunks).fullText =
      concatStrings (OpenAIProvider.processStream dec chunks).chunks
    rw [processStream_eq]

/-- Witness for C8 at the concrete two-read stream whose first read ends
in the middle of a line: the parser emits exactly the fragments Hello,
and world! in order, aggregates them, ends with an empty buffer, skips
the done sentinel and counts nothing malformed. -/
theorem streaming_parse_characterization_witness :
    OpenAIProvider.processStream sampleDecoder sampleStreamChunks =
      { buffer := [], fullText := "Hello, world!",
        chunks := ["Hello, ", "world!"], malformed := 0 } ∧
    OpenAIProvider.lineEmission sampleDecoder sampleDoneLine = none ∧
    OpenAIProvider.lineMalformed sampleDecoder sampleDoneLine = false := by
  have h := streaming_parse_characterization sampleDecoder sampleStreamChunks
    OpenAIProvider.initialStreamState sampleDoneLine [] sampleRequest "id3" 1 2
  have hdone := h.2.2.2.2.1 (by decide)
  refine ⟨?_, hdone.1, hdone.2⟩
  rw [h.1]
  decide
